import Mathlib

/-!
Verification of the identity/authorization core of the fullstack-fastify-graphql
backend, shallowly embedded in Lean.

Conventions used throughout the embedding:

* Machine numbers coerced with the JS unary `+` (user ids, roles, statuses,
  unix timestamps) are modelled as `Int` or `Nat`.
* JWT token strings are modelled symbolically: a token value is either an
  unparsable string (`Jwt.malformed`) or a well-formed signed token fully
  determined by its payload, the signing secret and the algorithm
  (`Jwt.signed`).  This mirrors the information content that
  `jsonwebtoken`'s `sign`/`verify` (used through the `fastify-jwt` plugin)
  read and produce; the base64/HMAC wire format itself carries no further
  information relevant to the source code under study.
* Fallible JS code that `throw`s is modelled with `Except`.
* `async` functions in the source are sequential per request; they are
  modelled as pure functions with explicit state passing.
-/

namespace FullstackAuth

/-! ## Credential Verifier: `isPasswordResetTokenValid` (sequelize user-security trait)

The trait works on JS strings with `String.trim`, `String.split('_')` and
`Number(...)`/`isNaN(...)`.  Those operations are embedded over the string's
character list (structural recursion, so the kernel can evaluate them):

* `jsTrim` drops ASCII whitespace from both ends, as `String.trim` does on the
  inputs in question.
* `lastUnderscoreSegment` is `token.split('_').slice(-1)[0]`: the characters
  after the last `'_'`, or the whole string when no `'_'` occurs.
* `jsNumberNat` is JS `Number(s)` restricted to the decimal-integer segments
  this function is applied to (the trailing part of `code + "_" + unixTime`):
  it parses a non-empty all-digit string and is `none` (JS: `NaN`) otherwise.
  `Number` of a numeric string is falsy exactly when the value is `0`.
-/

/-- Is this an ASCII whitespace character (the ones `String.prototype.trim` strips
from the tokens in question)? -/
def isJsSpace (c : Char) : Bool :=
  c = ' ' || c = '\t' || c = '\n' || c = '\r'

/-- JS `String.prototype.trim` on the character list of a string. -/
def jsTrim (cs : List Char) : List Char :=
  ((cs.dropWhile isJsSpace).reverse.dropWhile isJsSpace).reverse

/-- Characters strictly after the last occurrence of `sep`; the whole list when
`sep` does not occur.  This is `s.split(sep).slice(-1)[0]`. -/
def lastSegmentAux (sep : Char) : List Char → List Char → List Char
  | [], acc => acc.reverse
  | c :: cs, acc =>
      if c = sep then lastSegmentAux sep cs []
      else lastSegmentAux sep cs (c :: acc)

/-- `s.split('_').slice(-1)[0]` over a character list. -/
def lastUnderscoreSegment (cs : List Char) : List Char :=
  lastSegmentAux '_' cs []

/-- JS `Number(s)` on the decimal-integer string segments handled by the
password-reset helpers: `some n` for a non-empty all-digit string, else `none`
(JS yields `NaN` there, and both `!Number(ts)` and `isNaN(ts)` reject it). -/
def jsNumberNat (cs : List Char) : Option Nat :=
  if cs = [] then none
  else if cs.all Char.isDigit then
    some (cs.foldl (fun n c => 10 * n + (c.toNat - '0'.toNat)) 0)
  else none

/-- `UserSecurityTrait.isPasswordResetTokenValid(token, {expire})` evaluated at
current unix time `now`.  Mirrors the source line by line:
trim; empty token fails; take the trailing underscore segment; fail when it is
empty, `Number(...)` of it is falsy (`NaN` or `0`), or `isNaN`; otherwise the
token is valid iff `Number(timestamp) + Number(expire) > time()`. -/
def isPasswordResetTokenValid (now expire : Nat) (token : String) : Bool :=
  let theToken := jsTrim token.toList
  if theToken = [] then false
  else
    match jsNumberNat (lastUnderscoreSegment theToken) with
    | none => false
    | some ts => if ts = 0 then false else decide (ts + expire > now)

/-! ## Token Codec (`jwt-identity` helper around `fastify-jwt`/`jsonwebtoken`) -/

/-- The claims carried by an auth token (exactly the payload built by
`createToken`). -/
structure JwtClaims where
  iss : String
  aud : String
  jti : String
  sub : String
  iat : Int
  nbf : Int
  exp : Int
  /-- `idt`: the identity's authorization key. -/
  idt : String
  /-- `rol`: the numeric role at issuance (JS coerces it with unary `+`). -/
  rol : Int
  deriving DecidableEq, Repr

/-- A token string, symbolically: either a string that does not parse as a JWT
at all, or a well-formed token determined by payload, signing secret and
algorithm. -/
inductive Jwt where
  | malformed (raw : String)
  | signed (payload : JwtClaims) (key : String) (alg : String)
  deriving DecidableEq, Repr

/-- The configuration the codec reads through `fastify.config`.  The source
reads the issuance claims under `session.jwt.claims.*` but verifies the token
id against `auth.jwt.claims.jti` — two distinct config paths, kept as separate
fields (`sessJti` vs `authJti`).  The config file itself is not among the
sources; the spec describes one consistent token-id binding, so theorems that
need the two paths to agree state that as an explicit hypothesis. -/
structure JwtConfig where
  /-- `uri.url`, used as issuer for both sign and verify. -/
  url : String
  /-- `uri.baseUrl`, used as audience for both sign and verify. -/
  baseUrl : String
  /-- `auth.jwt.claims.jti`: the `jwtid` option passed to `verify`. -/
  authJti : String
  /-- `session.jwt.claims.jti`: the `jti` claim set by `createToken`. -/
  sessJti : String
  /-- `session.jwt.claims.sub` (default `"auth"`), set by `createToken`. -/
  sessSub : String
  /-- `session.jwt.notBeforeSeconds` (default 0). -/
  notBeforeSeconds : Int
  /-- `session.jwt.expireAfterDays` (default 15). -/
  expireAfterDays : Int
  /-- The symmetric signing secret registered with the `fastify-jwt` plugin. -/
  key : String
  deriving Repr

/-- `jsonwebtoken.verify(token, secret, {algorithms:['HS512'], issuer,
audience, jwtid})` at clock time `now`, in the library's own check order:
decode, algorithm/signature, `nbf` (reject while `now < nbf`), `exp` (reject
once `now ≥ exp`), audience, issuer, token id.  The `sub:` entry the caller
passes is not a `jsonwebtoken` verify option (that option is spelled
`subject`), so no subject check happens.  Expiry and not-before ARE validated:
the call site sets neither `ignoreExpiration` nor `ignoreNotBefore`. -/
def jwtVerify (cfg : JwtConfig) (now : Int) (tok : Jwt) : Except String JwtClaims :=
  match tok with
  | Jwt.malformed _ => Except.error "jwt malformed"
  | Jwt.signed payload key alg =>
      if alg ≠ "HS512" then Except.error "invalid algorithm"
      else if key ≠ cfg.key then Except.error "invalid signature"
      else if now < payload.nbf then Except.error "jwt not active"
      else if payload.exp ≤ now then Except.error "jwt expired"
      else if payload.aud ≠ cfg.baseUrl then Except.error "jwt audience invalid"
      else if payload.iss ≠ cfg.url then Except.error "jwt issuer invalid"
      else if payload.jti ≠ cfg.authJti then Except.error "jwt jwtid invalid"
      else Except.ok payload

/-- The typed error raised by the auth helpers (`AuthError(msg, code, status)`
in `jwt-identity`). -/
structure AuthError where
  msg : String
  statusCode : Nat
  statusText : String
  deriving DecidableEq, Repr

/-- `decodeToken(token)`: `fastify.jwt.verify` with the configured issuer,
audience and token id; every verification failure is rethrown as
`AuthError(err.message, 400, 'Bad Request')`. -/
def decodeToken (cfg : JwtConfig) (now : Int) (tok : Jwt) : Except AuthError JwtClaims :=
  match jwtVerify cfg now tok with
  | Except.error m => Except.error ⟨m, 400, "Bad Request"⟩
  | Except.ok c => Except.ok c

/-- The value returned by `createToken`. -/
structure TokenData where
  auth_token : Jwt
  /-- `issued_at` (the source formats it as an ATOM date; instants are modelled
  in unix seconds, which the format round-trips losslessly). -/
  issued_at : Int
  /-- `expires_at`, likewise in unix seconds. -/
  expires_at : Int
  deriving DecidableEq, Repr

/-- `createToken(authKey, role)` at current time `now` (unix seconds, UTC).
`iat` is now; `nbf` adds `session.jwt.notBeforeSeconds`; `exp` adds
`session.jwt.expireAfterDays` days (86400 seconds each in UTC); the payload
carries issuer `uri.url`, audience `uri.baseUrl`, the `session.jwt.claims`
token id and subject, `idt = authKey` and `rol = role`; signing uses HS512
with the configured secret. -/
def createToken (cfg : JwtConfig) (now : Int) (authKey : String) (role : Int) : TokenData :=
  let issuedAt := now
  let notBefore := issuedAt + cfg.notBeforeSeconds
  let expireOn := issuedAt + cfg.expireAfterDays * 86400
  { auth_token := Jwt.signed
      { iss := cfg.url, aud := cfg.baseUrl, jti := cfg.sessJti, sub := cfg.sessSub
        iat := issuedAt, nbf := notBefore, exp := expireOn
        idt := authKey, rol := role } cfg.key "HS512"
    issued_at := issuedAt
    expires_at := expireOn }

/-! ## Identity record and store -/

/-- The identity attributes this core reads from the `User` model
(`id`, `authorization_key`, `role`, `status`) plus the JSONB security flag
`meta.security.token.invalidate` read through `getJsonValue` (the JSONB trait
is not among the sources; per the spec's data model it is the boolean
`securityFlags.tokenInvalidated`, modelled as a plain field). -/
structure Identity where
  id : Int
  authorizationKey : String
  role : Int
  status : Int
  tokenInvalidate : Bool
  deriving DecidableEq, Repr

/-- `User.STATUS_ACTIVE = 10`. -/
def STATUS_ACTIVE : Int := 10

/-- `User.validateStatusOnLogin(status)`: `+User.STATUS_ACTIVE === +status`. -/
def validateStatusOnLogin (status : Int) : Bool :=
  decide (STATUS_ACTIVE = status)

/-- Modelled from the spec: `model.toStatus()` comes from the status trait,
which is not among the sources.  The spec's lifecycle states are active,
inactive-pending-activation, blocked, disabled, deleted; the resolver
lower-cases the name for its error message, so the lower-cased name is
returned directly. -/
def toStatusLower (status : Int) : String :=
  if status = 10 then "active"
  else if status = 2 then "inactive"
  else if status = 3 then "blocked"
  else if status = 4 then "disabled"
  else if status = 0 then "deleted"
  else "unknown"

/-! ## Identity Cache (the `authUsers` DataLoader and `userFromDataLoader`)

The `authUsers` loader is a `DataLoader` whose cache maps an authorization key
to the value primed for it — always a bare `User` model or `null`, never an
array (`jwt-identity` primes `findByAuthKey`'s result; the login resolver
primes the bare model).  Its batch function returns `{}`, which is not an
array, so the library rejects every batch-dispatched load with a `TypeError`
and removes those keys from the cache again (`failedDispatch` clears each key
of a failed batch).

`userFromDataLoader` consumes the loader with
`[model] = await userLoader.load(authKey)`.  Array destructuring of the
resolved value throws a `TypeError` unless the value is iterable, and the
cached values here (a bare model or `null`) never are.  Hence the `try` block
ends in the `catch` on every path — a cache miss rejects in `load`, a cache
hit throws in the destructuring — and `model` is `null` afterwards, so the
function always falls through to one `User.findByAuthKey` store fetch and then
primes the loader (`prime` keeps an existing entry, so a hit leaves the cache
unchanged; a miss inserts the fetched result). -/

/-- The `authUsers` DataLoader's cache map: authorization key to primed value
(a found model or the `null` negative result). -/
structure DataLoaderState where
  cache : List (String × Option Identity)
  deriving DecidableEq, Repr

/-- `DataLoader.prototype.clear(key)`. -/
def DataLoaderState.clear (st : DataLoaderState) (key : String) : DataLoaderState :=
  ⟨st.cache.filter (fun p => p.1 ≠ key)⟩

/-- `DataLoader.prototype.prime(key, value)`: inserts only when the key is not
cached yet. -/
def DataLoaderState.prime (st : DataLoaderState) (key : String) (v : Option Identity) :
    DataLoaderState :=
  if (st.cache.lookup key).isSome then st else ⟨(key, v) :: st.cache⟩

/-- `userFromDataLoader(authKey)` against backing store `store`
(`User.findByAuthKey`).  Returns the resolved model, the loader state after
the call, and the number of store fetches performed.  As explained above, the
`try` block always ends in its `catch`, so the result is always one fresh
`findByAuthKey` fetch, followed by `prime`. -/
def userFromDataLoader (store : String → Option Identity) (st : DataLoaderState)
    (authKey : String) : Option Identity × DataLoaderState × Nat :=
  let fetched := store authKey
  (fetched, st.prime authKey fetched, 1)

/-! ## Identity Resolver (`findIdentityByToken`) -/

/-- `findIdentityByToken(token)`.  The argument is the result of
`getTokenFromAll`, which returns either a token string or an `Error` object;
passing an `Error` into `fastify.jwt.verify` fails decoding ("jwt must be a
string"), surfaced as `AuthError(_, 400, 'Bad Request')` like any other decode
failure.  Then: resolve the identity through `userFromDataLoader` on the `idt`
claim; `null` fails with 404 Not found; a non-active status fails with 401
Unauthorized ("Your account has been <status>"); an invalidated token flag
fails with 400 Bad Request; a role claim different from the identity's current
role (`+decoded['rol'] !== +model.role`) fails with 401 Unauthorized; otherwise
the `{model, decoded}` pair is returned.  The loader state is threaded
through. -/
def findIdentityByToken (cfg : JwtConfig) (now : Int) (store : String → Option Identity)
    (st : DataLoaderState) (tokenOrErr : Except AuthError Jwt) :
    Except AuthError (Identity × JwtClaims) × DataLoaderState :=
  match tokenOrErr with
  | Except.error _ => (Except.error ⟨"jwt must be a string", 400, "Bad Request"⟩, st)
  | Except.ok tok =>
    match decodeToken cfg now tok with
    | Except.error e => (Except.error e, st)
    | Except.ok decoded =>
      let r := userFromDataLoader store st decoded.idt
      match r.1 with
      | none =>
          (Except.error ⟨"Token may invalidated or user not found", 404, "Not found"⟩, r.2.1)
      | some model =>
          if ¬ validateStatusOnLogin model.status then
            (Except.error ⟨"Your account has been " ++ toStatusLower model.status,
              401, "Unauthorized"⟩, r.2.1)
          else if model.tokenInvalidate then
            (Except.error
              ⟨"Access token is expired, disabled, or deleted, or the user has globally signed out",
                400, "Bad Request"⟩, r.2.1)
          else if decoded.rol ≠ model.role then
            (Except.error ⟨"Ineligible user role", 401, "Unauthorized"⟩, r.2.1)
          else (Except.ok (model, decoded), r.2.1)

/-! ## Token transport and the request hook (`fastify-auth-decorator`)

The extraction helpers work on raw header strings (trimming, splitting on
spaces, cookie parsing); a request is modelled at the level those operations
observe: whether each header is present, whether the relevant value trims to
empty, and which token value the header carries.  Error codes, status texts
and control flow are exactly those of the source. -/

/-- What `getTokenFromAuthBearer`/`getTokenFromCookie` observe about a request:
presence and (post-trim) emptiness of the `authorization` header and of the
`auth_token` cookie, and the token each one carries (the last space-separated
word of the header, resp. the cookie value). -/
structure Request where
  hasAuthorizationHeader : Bool
  authorizationHeaderBlank : Bool
  bearerToken : Jwt
  hasCookieHeader : Bool
  hasAuthTokenCookie : Bool
  authTokenCookieBlank : Bool
  cookieToken : Jwt
  deriving Repr

/-- `getTokenFromAuthBearer(request)`: 401 Unauthorized without an
`authorization` header, 400 Bad Request when it trims to empty, otherwise the
last space-separated word. -/
def getTokenFromAuthBearer (req : Request) : Except AuthError Jwt :=
  if ¬ req.hasAuthorizationHeader then
    Except.error ⟨"Missing authorization header", 401, "Unauthorized"⟩
  else if req.authorizationHeaderBlank then
    Except.error ⟨"Token was empty", 400, "Bad Request"⟩
  else Except.ok req.bearerToken

/-- `getTokenFromCookie(request)`: 401 Unauthorized without a `cookie` header,
400 Bad Request when the `auth_token` cookie is missing or trims to empty,
otherwise the cookie value. -/
def getTokenFromCookie (req : Request) : Except AuthError Jwt :=
  if ¬ req.hasCookieHeader then
    Except.error ⟨"Authorization required", 401, "Unauthorized"⟩
  else if ¬ req.hasAuthTokenCookie || req.authTokenCookieBlank then
    Except.error ⟨"Token was empty", 400, "Bad Request"⟩
  else Except.ok req.cookieToken

/-- `getTokenFromAll(request)`: the bearer header, falling back to the cookie
when the header path returned an `Error`. -/
def getTokenFromAll (req : Request) : Except AuthError Jwt :=
  match getTokenFromAuthBearer req with
  | Except.error _ => getTokenFromCookie req
  | Except.ok tok => Except.ok tok

/-- The `fastify.user` decoration installed once at boot by the
`fastify-auth-decorator` plugin: a single server-level mutable object
(`fastify.decorate('user', {...})`, not a per-request decoration). -/
structure FastifyUser where
  isGuest : Bool
  identity : Option Identity
  id : Option Int
  deriving DecidableEq, Repr

/-- The server-level mutable state this core touches: the `authUsers`
DataLoader (decorated once by the `fastify-data-loaders` plugin) and the
`fastify.user` object.  Both live on the fastify instance itself and are
shared by every request the server handles. -/
structure ServerState where
  loader : DataLoaderState
  user : FastifyUser
  deriving DecidableEq, Repr

/-- The state right after boot: the data-loaders plugin creates the loaders
(empty caches) and `fastify-auth-decorator` decorates the guest user. -/
def serverBoot : ServerState :=
  { loader := ⟨[]⟩
    user := { isGuest := true, identity := none, id := none } }

/-- The `onRequest` hook of `fastify-auth-decorator`: it runs
`findIdentityByToken(getTokenFromAll(req))` in a `try`; on success it marks the
user authenticated (`isGuest = model === null` is false there, since a null
model throws inside the resolver) and stores the model and its id; on ANY
thrown error it resets `fastify.user` to the guest triple and the request
proceeds — the error is not rethrown. -/
def onRequestHook (cfg : JwtConfig) (now : Int) (store : String → Option Identity)
    (st : ServerState) (req : Request) : ServerState :=
  match findIdentityByToken cfg now store st.loader (getTokenFromAll req) with
  | (Except.ok (model, _), ld) =>
      { loader := ld
        user := { isGuest := false, identity := some model, id := some model.id } }
  | (Except.error _, ld) =>
      { loader := ld
        user := { isGuest := true, identity := none, id := none } }

/-! ## Authorization Rule Engine (GraphQL `@auth` and `@guest` directives) -/

/-- Modelled from the spec: the `RequestError` component
(`graphql/components/RequestError`, not among the sources) is the typed error
of the rule engine — a human-readable message plus a machine-readable kind
such as `UNAUTHORIZED`, `BAD_ROLE`, `BAD_STATUS`, `NOT_ALLOWED`. -/
structure RequestError where
  message : String
  kind : String
  deriving DecidableEq, Repr

/-- The `_authData` record a `@auth` directive stores on an object, field or
argument: allowed role names, status names and identity ids (each possibly
empty = unrestricted). -/
structure AuthRuleArgs where
  role : List String
  status : List String
  id : List Int
  deriving DecidableEq, Repr

/-- The `rolesMap` of `auth-directive.js`: numeric account type to role name
(only `3 ↦ CUSTOMER`); other numbers have no name (JS: `undefined`). -/
def rolesMap (role : Int) : Option String :=
  if role = 3 then some "CUSTOMER" else none

/-- The `statusesMap` of `auth-directive.js`: numeric status to status name
(`1 ↦ ACTIVE`, `2 ↦ INACTIVE`, `0 ↦ DELETED`, `3 ↦ BLOCKED`,
`4 ↦ DISABLED`); other numbers have no name. -/
def statusesMap (status : Int) : Option String :=
  if status = 1 then some "ACTIVE"
  else if status = 2 then some "INACTIVE"
  else if status = 0 then some "DELETED"
  else if status = 3 then some "BLOCKED"
  else if status = 4 then some "DISABLED"
  else none

/-- JS `list.includes(v)` where `v` is the (possibly `undefined`) result of a
map lookup: true iff the lookup produced a name contained in the list. -/
def includesOpt (l : List String) (v : Option String) : Bool :=
  l.any (fun s => v = some s)

/-- JS `list.includes(user.id)` where `user.id` may be `null`: membership of
the id when present, false for `null`. -/
def includesUserId (l : List Int) (v : Option Int) : Bool :=
  match v with
  | some n => l.contains n
  | none => false

/-- `AuthDirective.checkPermission(context, {role, status, id})` against the
current `app.user`.  Guests fail with `UNAUTHORIZED`; then, in order: a
non-empty role list must contain `rolesMap[user.identity.role]` or the call
fails with `BAD_ROLE`; a non-empty status list must contain
`statusesMap[user.identity.status]` or it fails with `BAD_STATUS`; a non-empty
id list must contain `user.id` (`includes(null)` is false) or it fails with
`NOT_ALLOWED`; otherwise the check returns and the wrapped resolver falls
through to the real handler. -/
def checkPermission (u : FastifyUser) (r : AuthRuleArgs) : Except RequestError Unit :=
  if u.isGuest then Except.error ⟨"Not Authorized", "UNAUTHORIZED"⟩
  else if r.role ≠ [] && ! includesOpt r.role ((u.identity.map Identity.role).bind rolesMap) then
    Except.error ⟨"Bad user role", "BAD_ROLE"⟩
  else if r.status ≠ [] && ! includesOpt r.status ((u.identity.map Identity.status).bind statusesMap) then
    Except.error ⟨"Bad account status", "BAD_STATUS"⟩
  else if r.id ≠ [] && ! includesUserId r.id u.id then
    Except.error ⟨"Only specific users are allowed", "NOT_ALLOWED"⟩
  else Except.ok ()

/-- A GraphQL field argument as the two directives see it: its name, the
`_authData` rule if a `@auth` directive is attached, and the `_guestOnly` flag
if a `@guest` directive is attached. -/
structure GqlArg where
  name : String
  authData : Option AuthRuleArgs
  guestOnly : Bool
  deriving DecidableEq, Repr

/-- `AuthDirective.validateArguments(args, context, details)`: for each
argument, in order, if it carries `_authData` AND the caller supplied it in
this call (`details.hasOwnProperty(arg.name)`), run `checkPermission` with the
argument's own rule; the first thrown error aborts. -/
def authValidateArguments (u : FastifyUser) (args : List GqlArg)
    (supplied : List String) : Except RequestError Unit :=
  match args with
  | [] => Except.ok ()
  | a :: rest =>
    match a.authData with
    | some rule =>
        if supplied.contains a.name then
          match checkPermission u rule with
          | Except.error e => Except.error e
          | Except.ok _ => authValidateArguments u rest supplied
        else authValidateArguments u rest supplied
    | none => authValidateArguments u rest supplied

/-- `GuestDirective.checkPermission(context)`: an authenticated (non-guest)
user fails with `NOT_ALLOWED`; a guest passes. -/
def guestCheckPermission (u : FastifyUser) : Except RequestError Unit :=
  if ¬ u.isGuest then
    Except.error ⟨"This can only access by non-authenticated users", "NOT_ALLOWED"⟩
  else Except.ok ()

/-- `GuestDirective.validateArguments(args, ctx, details)`: for each argument,
in order, fail with `NOT_ALLOWED` if it is marked `_guestOnly`, the caller
supplied it, and the current user is not a guest. -/
def guestValidateArguments (u : FastifyUser) (args : List GqlArg)
    (supplied : List String) : Except RequestError Unit :=
  match args with
  | [] => Except.ok ()
  | a :: rest =>
      if a.guestOnly && supplied.contains a.name && ¬ u.isGuest then
        Except.error ⟨"Argument `" ++ a.name ++ "` can only access by non-authenticated user(s).",
          "NOT_ALLOWED"⟩
      else guestValidateArguments u rest supplied

/-- The resolver wrapper installed by `GuestDirective.ensureFieldsWrapped`:
validate argument-level guest rules when the field has arguments, then, if the
field or its object type is marked `_guestOnly`, run `checkPermission`; only
after both checks pass does the real resolver run (its outcome is the `handler`
value). -/
def guestWrappedResolve {A : Type} (objectGuestOnly fieldGuestOnly : Bool)
    (u : FastifyUser) (fieldArgs : List GqlArg) (supplied : List String)
    (handler : Except RequestError A) : Except RequestError A :=
  match (if fieldArgs ≠ [] then guestValidateArguments u fieldArgs supplied else Except.ok ()) with
  | Except.error e => Except.error e
  | Except.ok _ =>
    if fieldGuestOnly || objectGuestOnly then
      match guestCheckPermission u with
      | Except.error e => Except.error e
      | Except.ok _ => handler
    else handler

/-! ## Concrete fixtures used by witnesses and counterexamples -/

/-- A concrete jwt configuration (both token-id config paths agree). -/
def cfg0 : JwtConfig :=
  { url := "https://example.com", baseUrl := "example.com", authJti := "jti0"
    sessJti := "jti0", sessSub := "auth", notBeforeSeconds := 0
    expireAfterDays := 15, key := "secret" }

/-- The payload of a well-formed token for authorization key `K`, role 3,
valid from 0 to 1000000. -/
def claims0 : JwtClaims :=
  { iss := "https://example.com", aud := "example.com", jti := "jti0", sub := "auth"
    iat := 0, nbf := 0, exp := 1000000, idt := "K", rol := 3 }

/-- A correctly signed token carrying `claims0`. -/
def tok0 : Jwt := Jwt.signed claims0 "secret" "HS512"

/-- An active customer identity holding authorization key `K`. -/
def ident0 : Identity :=
  { id := 1, authorizationKey := "K", role := 3, status := 10, tokenInvalidate := false }

/-- A backing store holding exactly `ident0` under key `K`. -/
def store0 : String → Option Identity :=
  fun k => if k = "K" then some ident0 else none

/-- A request presenting `tok0` in its authorization header. -/
def req0 : Request :=
  { hasAuthorizationHeader := true, authorizationHeaderBlank := false
    bearerToken := tok0, hasCookieHeader := false, hasAuthTokenCookie := false
    authTokenCookieBlank := false, cookieToken := Jwt.malformed "" }

/-- A request whose authorization header carries an unparsable token string. -/
def badReq0 : Request :=
  { hasAuthorizationHeader := true, authorizationHeaderBlank := false
    bearerToken := Jwt.malformed "garbage", hasCookieHeader := false
    hasAuthTokenCookie := false, authTokenCookieBlank := false
    cookieToken := Jwt.malformed "" }

/-- The authenticated `fastify.user` value the hook builds for `ident0`. -/
def user0 : FastifyUser :=
  { isGuest := false, identity := some ident0, id := some 1 }

/-! ## C1: the Validate step of the Identity Resolver -/

/-- C1.  For every request whose token decodes successfully and whose identity
is found in the store, `findIdentityByToken` validates in order, short-circuiting
on the first failure: a non-active status fails with 401 Unauthorized
("Your account has been <status>"); otherwise an invalidated-token flag fails
with 400 Bad Request; otherwise a `rol` claim different from the identity's
current role fails with 401 Unauthorized ("Ineligible user role"); otherwise
the identity/claims pair is returned.  In particular a non-active identity
fails regardless of token validity, and a role-mismatched token fails with
Unauthorized even though it decoded successfully. -/
theorem C1_validate_order (cfg : JwtConfig) (now : Int) (store : String → Option Identity)
    (st : DataLoaderState) (tok : Jwt) (decoded : JwtClaims) (m : Identity)
    (hdec : decodeToken cfg now tok = Except.ok decoded)
    (hstore : store decoded.idt = some m) :
    (validateStatusOnLogin m.status = false →
      (findIdentityByToken cfg now store st (Except.ok tok)).1
        = Except.error ⟨"Your account has been " ++ toStatusLower m.status, 401, "Unauthorized"⟩)
  ∧ (validateStatusOnLogin m.status = true → m.tokenInvalidate = true →
      (findIdentityByToken cfg now store st (Except.ok tok)).1
        = Except.error
            ⟨"Access token is expired, disabled, or deleted, or the user has globally signed out",
              400, "Bad Request"⟩)
  ∧ (validateStatusOnLogin m.status = true → m.tokenInvalidate = false → decoded.rol ≠ m.role →
      (findIdentityByToken cfg now store st (Except.ok tok)).1
        = Except.error ⟨"Ineligible user role", 401, "Unauthorized"⟩)
  ∧ (validateStatusOnLogin m.status = true → m.tokenInvalidate = false → decoded.rol = m.role →
      (findIdentityByToken cfg now store st (Except.ok tok)).1
        = Except.ok (m, decoded)) := by
  refine ⟨fun h1 => ?_, fun h1 h2 => ?_, fun h1 h2 h3 => ?_, fun h1 h2 h3 => ?_⟩
  · simp [findIdentityByToken, userFromDataLoader, hdec, hstore, h1]
  · simp [findIdentityByToken, userFromDataLoader, hdec, hstore, h1, h2]
  · simp [findIdentityByToken, userFromDataLoader, hdec, hstore, h1, h2, h3]
  · simp [findIdentityByToken, userFromDataLoader, hdec, hstore, h1, h2, h3]

/-- Witness for C1: a well-formed token for the active, non-invalidated,
role-matching identity `ident0` resolves to the identity/claims pair. -/
theorem C1_validate_order_witness :
    (findIdentityByToken cfg0 500 store0 ⟨[]⟩ (Except.ok tok0)).1
      = Except.ok (ident0, claims0) :=
  (C1_validate_order cfg0 500 store0 ⟨[]⟩ tok0 claims0 ident0 rfl rfl).2.2.2 rfl rfl rfl

/-! ## C2: REQUIRE_AUTH rule evaluation -/

/-- C2.  `AuthDirective.checkPermission` evaluates a REQUIRE_AUTH rule in
order: a guest fails with UNAUTHORIZED; then a non-empty role list not
containing the user's mapped role fails with BAD_ROLE; then a non-empty status
list not containing the user's mapped status fails with BAD_STATUS; then a
non-empty id list not containing the user's id fails with NOT_ALLOWED;
otherwise the check passes (and the wrapped resolver falls through to the real
handler).  An empty list on any axis imposes no restriction on that axis. -/
theorem C2_requireAuth_evaluation (u : FastifyUser) (r : AuthRuleArgs) :
    (u.isGuest = true →
      checkPermission u r = Except.error ⟨"Not Authorized", "UNAUTHORIZED"⟩)
  ∧ (∀ i : Identity, u.isGuest = false → u.identity = some i →
      (r.role ≠ [] → includesOpt r.role (rolesMap i.role) = false →
        checkPermission u r = Except.error ⟨"Bad user role", "BAD_ROLE"⟩)
    ∧ ((r.role = [] ∨ includesOpt r.role (rolesMap i.role) = true) →
        r.status ≠ [] → includesOpt r.status (statusesMap i.status) = false →
        checkPermission u r = Except.error ⟨"Bad account status", "BAD_STATUS"⟩)
    ∧ ((r.role = [] ∨ includesOpt r.role (rolesMap i.role) = true) →
        (r.status = [] ∨ includesOpt r.status (statusesMap i.status) = true) →
        r.id ≠ [] → includesUserId r.id u.id = false →
        checkPermission u r = Except.error ⟨"Only specific users are allowed", "NOT_ALLOWED"⟩)
    ∧ ((r.role = [] ∨ includesOpt r.role (rolesMap i.role) = true) →
        (r.status = [] ∨ includesOpt r.status (statusesMap i.status) = true) →
        (r.id = [] ∨ includesUserId r.id u.id = true) →
        checkPermission u r = Except.ok ())) := by
  refine ⟨fun hg => by simp [checkPermission, hg], fun i hg hi => ?_⟩
  refine ⟨fun h1 h2 => ?_, fun h1 h2 h3 => ?_, fun h1 h2 h3 h4 => ?_, fun h1 h2 h3 => ?_⟩
  · simp [checkPermission, hg, hi, h1, h2]
  · rcases h1 with h1 | h1 <;> simp [checkPermission, hg, hi, h1, h2, h3]
  · rcases h1 with h1 | h1 <;> rcases h2 with h2 | h2 <;>
      simp [checkPermission, hg, hi, h1, h2, h3, h4]
  · rcases h1 with h1 | h1 <;> rcases h2 with h2 | h2 <;> rcases h3 with h3 | h3 <;>
      simp [checkPermission, hg, hi, h1, h2, h3]

/-- Witness for C2: the non-guest customer `user0` passes a rule whose role
list contains CUSTOMER and whose other axes are unrestricted. -/
theorem C2_requireAuth_evaluation_witness :
    checkPermission user0 ⟨["CUSTOMER"], [], []⟩ = Except.ok () :=
  ((C2_requireAuth_evaluation user0 ⟨["CUSTOMER"], [], []⟩).2 ident0 rfl rfl).2.2.2
    (Or.inr rfl) (Or.inl rfl) (Or.inl rfl)

/-! ## C10: password-reset token validity -/

/-- C10 counterexample.  `isPasswordResetTokenValid` is not "valid exactly
while timestamp + expiry exceeds the current time": the token `a_0` has a
parsable timestamp segment `0`, and with expiry 2000000000 its
timestamp + expiry (= 2000000000) exceeds the current time 1760000000, yet the
function returns false, because `!Number("0")` treats the zero timestamp as
falsy and fails closed. -/
theorem C10_counterexample :
    isPasswordResetTokenValid 1760000000 2000000000 "a_0" = false
  ∧ 0 + 2000000000 > 1760000000 := by
  exact ⟨by decide, by decide⟩

/-- C10 (amended).  `isPasswordResetTokenValid` fails closed: an empty token,
an unparsable trailing timestamp segment, a zero timestamp, and a timestamp
whose sum with the expiry window is at most the current time all yield false;
a token whose trailing segment parses to a nonzero timestamp is valid exactly
while timestamp + expiry exceeds the current time (in particular
`isResetTokenValid("abc_9999999999999", 3600)` holds exactly while
9999999999999 + 3600 > now). -/
theorem C10_reset_token_validity :
    (∀ now expire : Nat, isPasswordResetTokenValid now expire "" = false)
  ∧ (∀ (now expire : Nat) (t : String),
      jsNumberNat (lastUnderscoreSegment (jsTrim t.toList)) = none →
      isPasswordResetTokenValid now expire t = false)
  ∧ (∀ (now expire : Nat) (t : String) (n : Nat),
      jsNumberNat (lastUnderscoreSegment (jsTrim t.toList)) = some n →
      n + expire ≤ now →
      isPasswordResetTokenValid now expire t = false)
  ∧ (∀ (now expire : Nat) (t : String) (n : Nat),
      jsNumberNat (lastUnderscoreSegment (jsTrim t.toList)) = some n →
      n ≠ 0 →
      (isPasswordResetTokenValid now expire t = true ↔ n + expire > now))
  ∧ (∀ now : Nat,
      (isPasswordResetTokenValid now 3600 "abc_9999999999999" = true ↔
        9999999999999 + 3600 > now)) := by
  have core : ∀ (now expire : Nat) (t : String),
      isPasswordResetTokenValid now expire t
        = (match jsNumberNat (lastUnderscoreSegment (jsTrim t.toList)) with
            | none => false
            | some ts => if ts = 0 then false else decide (ts + expire > now)) := by
    intro now expire t
    by_cases h : jsTrim t.toList = []
    · simp only [isPasswordResetTokenValid, h, lastUnderscoreSegment, lastSegmentAux,
        jsNumberNat, if_pos]
      rfl
    · simp only [isPasswordResetTokenValid, if_neg h]
  refine ⟨fun now expire => rfl, ?_, ?_, ?_, ?_⟩
  · intro now expire t h
    rw [core, h]
  · intro now expire t n h hle
    rw [core, h]
    by_cases h0 : n = 0
    · simp [h0]
    · simp [h0, Nat.not_lt.mpr hle]
  · intro now expire t n h hn
    rw [core, h]
    simp [hn]
  · intro now
    have h : jsNumberNat (lastUnderscoreSegment (jsTrim "abc_9999999999999".toList))
        = some 9999999999999 := by decide
    rw [core, h]
    norm_num

/-- Witness for C10: the concrete token from the spec is valid at a current
time inside its window. -/
theorem C10_reset_token_validity_witness :
    isPasswordResetTokenValid 1760000000 3600 "abc_9999999999999" = true :=
  (C10_reset_token_validity.2.2.2.2 1760000000).mpr (by decide)

/-! ## C3: error propagation through the onRequest hook -/

/-- C3.  A request presenting a malformed token makes the Identity Resolver
fail with a typed 400 Bad Request error, but the `fastify-auth-decorator`
onRequest hook catches that error and silently resets the current user to
guest: the failure is swallowed inside the hook and the request proceeds as an
anonymous one instead of surfacing the error to the caller. -/
theorem C3_hook_swallows_resolver_error :
    (findIdentityByToken cfg0 500 store0 ⟨[]⟩ (getTokenFromAll badReq0)).1
      = Except.error ⟨"jwt malformed", 400, "Bad Request"⟩
  ∧ onRequestHook cfg0 500 store0 serverBoot badReq0
      = { loader := ⟨[]⟩, user := { isGuest := true, identity := none, id := none } } :=
  ⟨rfl, rfl⟩

/-! ## C4: scoping of the Identity Cache and the current identity

The `authUsers` loader is created once when the `fastify-data-loaders` plugin
registers and is decorated onto the fastify instance itself
(`fastify.decorate('dataLoaders', loaders)`), and `fastify-auth-decorator`
likewise decorates a single mutable `fastify.user` object at boot.  Neither is
rebuilt per request: the server state left by one request is exactly the state
the next request starts from.  The only code that removes or replaces cache
entries is the explicit `clear`/`prime` calls a resolver may make while
handling a request: the logout resolver clears the identity's key
(`authUsers.clear(identity.authorization_key)`, and likewise the auth helper's
logout), and the login resolver clears and re-primes it
(`authUsers.clear(authKey).prime(authKey, model)`). -/

/-- `prime` never changes the value already cached under any key. -/
theorem prime_preserves_lookup (st : DataLoaderState) (key : String) (val : Option Identity)
    (k : String) (v : Option Identity) (h : st.cache.lookup k = some v) :
    (st.prime key val).cache.lookup k = some v := by
  unfold DataLoaderState.prime
  by_cases hc : (st.cache.lookup key).isSome
  · simp [hc, h]
  · by_cases hk : k = key
    · subst hk
      rw [h] at hc
      simp at hc
    · have hbeq : (k == key) = false := beq_eq_false_iff_ne.mpr hk
      simp [hc, List.lookup, hbeq, h]

/-- The loader state after `findIdentityByToken` is either untouched or the
result of one `prime`. -/
theorem findIdentityByToken_state (cfg : JwtConfig) (now : Int)
    (store : String → Option Identity) (st : DataLoaderState)
    (tokE : Except AuthError Jwt) :
    (findIdentityByToken cfg now store st tokE).2 = st
  ∨ ∃ key, (findIdentityByToken cfg now store st tokE).2
      = st.prime key (store key) := by
  rcases tokE with e | tok
  · exact Or.inl rfl
  · rcases hdec : decodeToken cfg now tok with e | decoded
    · left
      simp [findIdentityByToken, hdec]
    · right
      refine ⟨decoded.idt, ?_⟩
      rcases hs : store decoded.idt with _ | m
      · simp [findIdentityByToken, userFromDataLoader, hdec, hs]
      · by_cases h1 : validateStatusOnLogin m.status <;>
          by_cases h2 : m.tokenInvalidate <;>
          by_cases h3 : decoded.rol = m.role <;>
          simp [findIdentityByToken, userFromDataLoader, hdec, hs, h1, h2, h3]

/-- The hook's resulting loader is whatever the resolver left behind. -/
theorem onRequestHook_loader (cfg : JwtConfig) (now : Int)
    (store : String → Option Identity) (st : ServerState) (req : Request) :
    (onRequestHook cfg now store st req).loader
      = (findIdentityByToken cfg now store st.loader (getTokenFromAll req)).2 := by
  unfold onRequestHook
  generalize findIdentityByToken cfg now store st.loader (getTokenFromAll req) = x
  obtain ⟨res, ld⟩ := x
  rcases res with e | p
  · rfl
  · obtain ⟨model, d⟩ := p
    rfl

/-- C4 counterexample.  The Identity Cache is not rebuilt per request: after a
first request resolves and primes the identity of authorization key `K`, the
cache entry for `K` — and the authenticated current-identity value — are still
present in the server state in which the next request starts. -/
theorem C4_counterexample :
    (onRequestHook cfg0 500 store0 serverBoot req0).loader.cache.lookup "K"
      = some (some ident0)
  ∧ (onRequestHook cfg0 500 store0 serverBoot req0).user.isGuest = false :=
  ⟨rfl, rfl⟩

/-- An explicit cache operation a resolver may perform on the `authUsers`
loader while handling a request: `clear` is the logout paths
(`authUsers.clear(identity.authorization_key)` in the logout resolver and
`authUsersLoader.clear(identity.auth_key)` in the auth helper's logout);
`clearPrime` is the login resolver's
`authUsers.clear(authKey).prime(authKey, model)`. -/
inductive CacheOp where
  | clear (key : String)
  | clearPrime (key : String) (m : Option Identity)
  deriving DecidableEq, Repr

/-- The authorization key a cache operation acts on. -/
def CacheOp.key : CacheOp → String
  | CacheOp.clear k => k
  | CacheOp.clearPrime k _ => k

/-- Apply one resolver cache operation to the loader. -/
def applyCacheOp (st : DataLoaderState) : CacheOp → DataLoaderState
  | CacheOp.clear k => st.clear k
  | CacheOp.clearPrime k m => (st.clear k).prime k m

/-- One full request against the server state: the `onRequest` hook runs
first (token extraction, resolution, priming), then the routed resolver runs,
performing whatever explicit `clear`/`prime` calls it contains (`ops`); the
resulting state is the state the next request starts from. -/
def handleRequest (cfg : JwtConfig) (now : Int) (store : String → Option Identity)
    (st : ServerState) (req : Request) (ops : List CacheOp) : ServerState :=
  let st1 := onRequestHook cfg now store st req
  { loader := ops.foldl applyCacheOp st1.loader, user := st1.user }

/-- `prime` on one key leaves the entries of every other key unchanged. -/
theorem prime_lookup_ne (st : DataLoaderState) (key : String) (v : Option Identity)
    (k : String) (hk : k ≠ key) :
    (st.prime key v).cache.lookup k = st.cache.lookup k := by
  unfold DataLoaderState.prime
  by_cases hc : (st.cache.lookup key).isSome
  · simp [hc]
  · have hbeq : (k == key) = false := beq_eq_false_iff_ne.mpr hk
    simp [hc, List.lookup, hbeq]

/-- `clear` on one key leaves the entries of every other key unchanged. -/
theorem clear_lookup_ne (st : DataLoaderState) (key k : String) (hk : k ≠ key) :
    (st.clear key).cache.lookup k = st.cache.lookup k := by
  obtain ⟨l⟩ := st
  simp only [DataLoaderState.clear]
  induction l with
  | nil => rfl
  | cons p rest ih =>
      obtain ⟨pk, pv⟩ := p
      simp only [List.filter_cons]
      by_cases hp : pk = key
      · rw [if_neg (by simp [hp]), ih, List.lookup_cons,
          beq_eq_false_iff_ne.mpr (show k ≠ pk by rw [hp]; exact hk)]
      · rw [if_pos (by simp [hp]), List.lookup_cons, List.lookup_cons]
        by_cases hkp : k = pk
        · rw [hkp, beq_self_eq_true]
        · rw [beq_eq_false_iff_ne.mpr hkp]
          exact ih

/-- Resolver cache operations that avoid a key leave that key's entry
unchanged. -/
theorem foldl_cacheOps_preserves (ops : List CacheOp) (st : DataLoaderState)
    (k : String) (v : Option Identity)
    (h : st.cache.lookup k = some v) (hops : ∀ op ∈ ops, op.key ≠ k) :
    (ops.foldl applyCacheOp st).cache.lookup k = some v := by
  induction ops generalizing st with
  | nil => exact h
  | cons op rest ih =>
      have hop : op.key ≠ k := hops op (List.mem_cons_self op rest)
      have hrest : ∀ o ∈ rest, o.key ≠ k := fun o ho => hops o (List.mem_cons_of_mem op ho)
      refine ih (applyCacheOp st op) ?_ hrest
      match op, hop with
      | CacheOp.clear key, hop =>
          show (st.clear key).cache.lookup k = some v
          rw [clear_lookup_ne st key k (Ne.symm hop)]
          exact h
      | CacheOp.clearPrime key m, hop =>
          show ((st.clear key).prime key m).cache.lookup k = some v
          rw [prime_lookup_ne _ key m k (Ne.symm hop), clear_lookup_ne st key k (Ne.symm hop)]
          exact h

/-- C4 (amended).  The Identity Cache and the current-identity value are
server-scoped, not request-scoped: the loaders and the user object are
decorated onto the fastify instance once at boot and shared by every request.
Provided the request's resolver does not explicitly clear or re-prime the key
(logout clears it; login clears and re-primes it), an entry already cached
survives the request's resolution step, an entry loaded or primed during the
request is still visible at the start of the next request, and the
current-identity value the hook set is still in place when the next request
arrives — nothing rebuilds either per request. -/
theorem C4_cache_server_scoped (cfg : JwtConfig) (now : Int)
    (store : String → Option Identity) (st : ServerState) (req : Request)
    (ops : List CacheOp) (k : String) (v : Option Identity)
    (hops : ∀ op ∈ ops, op.key ≠ k) :
    (st.loader.cache.lookup k = some v →
      (onRequestHook cfg now store st req).loader.cache.lookup k = some v)
  ∧ ((onRequestHook cfg now store st req).loader.cache.lookup k = some v →
      (handleRequest cfg now store st req ops).loader.cache.lookup k = some v)
  ∧ (handleRequest cfg now store st req ops).user
      = (onRequestHook cfg now store st req).user := by
  refine ⟨fun h => ?_, fun h => ?_, rfl⟩
  · rw [onRequestHook_loader]
    rcases findIdentityByToken_state cfg now store st.loader (getTokenFromAll req) with
      hst | ⟨key, hst⟩
    · rw [hst]; exact h
    · rw [hst]; exact prime_preserves_lookup st.loader key (store key) k v h
  · exact foldl_cacheOps_preserves ops _ k v h hops

/-- Witness for C4 (amended): the entry primed for key `K` during a request
whose resolver only clears the unrelated key `L` is still cached, unchanged,
in the state the next request starts from. -/
theorem C4_cache_server_scoped_witness :
    (onRequestHook cfg0 500 store0 serverBoot req0).loader.cache.lookup "K"
      = some (some ident0)
  ∧ (handleRequest cfg0 500 store0 serverBoot req0 [CacheOp.clear "L"]).loader.cache.lookup "K"
      = some (some ident0) :=
  ⟨rfl,
    (C4_cache_server_scoped cfg0 500 store0 serverBoot req0 [CacheOp.clear "L"] "K"
      (some ident0)
      (by
        intro op hop
        simp only [List.mem_singleton] at hop
        subst hop
        decide)).2.1 rfl⟩

/-! ## C5: store fetches issued by the Identity Cache -/

/-- Total store fetches for two `userFromDataLoader` calls in a row on the
same key. -/
def loadTwiceFetches (store : String → Option Identity) (st : DataLoaderState)
    (key : String) : Nat :=
  let r1 := userFromDataLoader store st key
  let r2 := userFromDataLoader store r1.2.1 key
  r1.2.2 + r2.2.2

/-- Store fetches for `clear(key)` followed by one `userFromDataLoader` call. -/
def clearThenLoadFetches (store : String → Option Identity) (st : DataLoaderState)
    (key : String) : Nat :=
  (userFromDataLoader store (st.clear key) key).2.2

/-- C5.  The cache never serves `userFromDataLoader`: every call issues a
backing-store fetch, because the loader's batch function returns a non-array
(so un-primed loads reject) and primed entries are bare models that fail the
array destructuring.  Hence `clear(key)` followed by `load(key)` does trigger
exactly one fresh store fetch, but `load(key)` twice in a row triggers two
store fetches — one per call — not one, already on the concrete store holding
`ident0` under key `K` and on every store/state/key. -/
theorem C5_store_fetch_per_call :
    loadTwiceFetches store0 ⟨[]⟩ "K" = 2
  ∧ clearThenLoadFetches store0 ⟨[]⟩ "K" = 1
  ∧ ∀ (store : String → Option Identity) (st : DataLoaderState) (key : String),
      loadTwiceFetches store st key = 2 ∧ clearThenLoadFetches store st key = 1 :=
  ⟨rfl, rfl, fun _ _ _ => ⟨rfl, rfl⟩⟩

/-! ## C6: what the Token Codec validates -/

/-- A correctly signed, correctly issued token whose validity window has not
started at time 500. -/
def tokNotYet : Jwt :=
  Jwt.signed
    { iss := "https://example.com", aud := "example.com", jti := "jti0", sub := "auth"
      iat := 0, nbf := 1000, exp := 1000000, idt := "K", rol := 3 } "secret" "HS512"

/-- C6 counterexample.  `decodeToken` does NOT leave expiry and not-before to
the caller: `tok0` has a valid signature, issuer, audience, and token id, yet
at time 2000000 (past its `exp`) verification fails with 400 Bad Request
instead of returning the claims, and `tokNotYet` (same validity of signature,
issuer, audience, token id) fails at time 500 (before its `nbf`). -/
theorem C6_counterexample :
    decodeToken cfg0 2000000 tok0 = Except.error ⟨"jwt expired", 400, "Bad Request"⟩
  ∧ decodeToken cfg0 500 tokNotYet = Except.error ⟨"jwt not active", 400, "Bad Request"⟩ :=
  ⟨rfl, rfl⟩

/-- C6 (amended).  `decodeToken` validates signature, issuer, audience and
token-id binding AND the validity window: every malformed token fails with
400 Bad Request; a token with valid signature, issuer, audience and token id
is returned exactly when `nbf ≤ now < exp`; and every failure whatsoever is
surfaced as 400 Bad Request.  Only the role and invalidation checks are left
to the Identity Resolver. -/
theorem C6_codec_checks (cfg : JwtConfig) (now : Int) :
    (∀ raw : String,
      decodeToken cfg now (Jwt.malformed raw)
        = Except.error ⟨"jwt malformed", 400, "Bad Request"⟩)
  ∧ (∀ p : JwtClaims, p.iss = cfg.url → p.aud = cfg.baseUrl → p.jti = cfg.authJti →
      (decodeToken cfg now (Jwt.signed p cfg.key "HS512") = Except.ok p ↔
        p.nbf ≤ now ∧ now < p.exp))
  ∧ (∀ (tok : Jwt) (e : AuthError),
      decodeToken cfg now tok = Except.error e →
        e.statusCode = 400 ∧ e.statusText = "Bad Request") := by
  refine ⟨fun raw => rfl, fun p hiss haud hjti => ?_, fun tok e he => ?_⟩
  · constructor
    · intro h
      by_cases h1 : now < p.nbf
      · simp [decodeToken, jwtVerify, h1] at h
      · by_cases h2 : p.exp ≤ now
        · simp [decodeToken, jwtVerify, h1, h2] at h
        · exact ⟨Int.not_lt.mp h1, Int.not_le.mp h2⟩
    · rintro ⟨hnbf, hexp⟩
      simp [decodeToken, jwtVerify, Int.not_lt.mpr hnbf, Int.not_le.mpr hexp,
        hiss, haud, hjti]
  · rcases hv : jwtVerify cfg now tok with m | c
    · simp only [decodeToken, hv] at he
      cases he
      exact ⟨rfl, rfl⟩
    · simp only [decodeToken, hv] at he
      simp at he

/-- Witness for C6 (amended): at time 500, which lies inside `tok0`'s
validity window, `decodeToken` returns the claims. -/
theorem C6_codec_checks_witness :
    decodeToken cfg0 500 tok0 = Except.ok claims0 :=
  ((C6_codec_checks cfg0 500).2.1 claims0 rfl rfl rfl).mpr ⟨by decide, by decide⟩

/-! ## C7: round-trip of issuance and verification -/

/-- C7.  For every authorization key and role, verifying the token produced by
`createToken` — at a time after the token's `nbf` and before its `exp`, with
the configuration's two token-id entries agreeing (they are read from two
distinct config paths; the spec describes one consistent token-id binding) —
yields claims whose `idt` is the key and whose `rol` is the role. -/
theorem C7_roundtrip (cfg : JwtConfig) (t0 now : Int) (key : String) (role : Int)
    (hjti : cfg.sessJti = cfg.authJti)
    (hnbf : t0 + cfg.notBeforeSeconds < now)
    (hexp : now < t0 + cfg.expireAfterDays * 86400) :
    ∃ c : JwtClaims,
      decodeToken cfg now (createToken cfg t0 key role).auth_token = Except.ok c
      ∧ c.idt = key ∧ c.rol = role := by
  refine ⟨{ iss := cfg.url, aud := cfg.baseUrl, jti := cfg.sessJti, sub := cfg.sessSub
            iat := t0, nbf := t0 + cfg.notBeforeSeconds
            exp := t0 + cfg.expireAfterDays * 86400
            idt := key, rol := role }, ?_, rfl, rfl⟩
  simp [createToken, decodeToken, jwtVerify, hjti,
    Int.not_lt.mpr (le_of_lt hnbf), Int.not_le.mpr hexp]

/-- Witness for C7: issuing for key `K` and role 3 at time 0 and verifying at
time 500 (inside the window) recovers `idt = K` and `rol = 3`. -/
theorem C7_roundtrip_witness :
    (0 + cfg0.notBeforeSeconds < 500 ∧ (500 : Int) < 0 + cfg0.expireAfterDays * 86400)
  ∧ ∃ c : JwtClaims,
      decodeToken cfg0 500 (createToken cfg0 0 "K" 3).auth_token = Except.ok c
      ∧ c.idt = "K" ∧ c.rol = 3 :=
  ⟨⟨by decide, by decide⟩, C7_roundtrip cfg0 0 500 "K" 3 rfl (by decide) (by decide)⟩

/-! ## C8: REQUIRE_GUEST rule evaluation -/

/-- C8.  `GuestDirective.checkPermission` passes exactly when the current user
is a guest; and for an authenticated user, the wrapped resolver of a
`_guestOnly` field fails with NOT_ALLOWED without ever running the real
handler (the outcome is this error whatever the handler would produce). -/
theorem C8_requireGuest (u : FastifyUser) :
    (guestCheckPermission u = Except.ok () ↔ u.isGuest = true)
  ∧ (u.isGuest = false →
      ∀ (A : Type) (objectGuestOnly : Bool) (handler : Except RequestError A),
        guestWrappedResolve objectGuestOnly true u [] [] handler
          = Except.error
              ⟨"This can only access by non-authenticated users", "NOT_ALLOWED"⟩) := by
  constructor
  · cases hg : u.isGuest <;> simp [guestCheckPermission, hg]
  · intro hg A objectGuestOnly handler
    simp [guestWrappedResolve, guestCheckPermission, hg]

/-- Witness for C8: the authenticated `user0` is rejected with NOT_ALLOWED by
a `_guestOnly` field regardless of its handler, and a guest passes the
check. -/
theorem C8_requireGuest_witness :
    guestWrappedResolve false true user0 [] [] (Except.ok true)
      = Except.error ⟨"This can only access by non-authenticated users", "NOT_ALLOWED"⟩
  ∧ guestCheckPermission { isGuest := true, identity := none, id := none } = Except.ok () :=
  ⟨(C8_requireGuest user0).2 rfl Bool false (Except.ok true),
    (C8_requireGuest { isGuest := true, identity := none, id := none }).1.mpr rfl⟩

/-! ## C9: argument-level rules fire only for supplied arguments -/

/-- Dropping every argument the caller did not supply leaves
`AuthDirective.validateArguments` unchanged. -/
theorem authValidateArguments_filter (u : FastifyUser) (args : List GqlArg)
    (supplied : List String) :
    authValidateArguments u (args.filter fun a => supplied.contains a.name) supplied
      = authValidateArguments u args supplied := by
  have hpred : (fun x : GqlArg => supplied.contains x.name)
      = (fun x : GqlArg => decide (x.name ∈ supplied)) := by
    funext x
    simp
  rw [hpred]
  induction args with
  | nil => rfl
  | cons a rest ih =>
      by_cases h : a.name ∈ supplied
      · rcases ha : a.authData with _ | rule <;>
          simp [authValidateArguments, List.filter_cons, h, ha, ih]
      · rcases ha : a.authData with _ | rule <;>
          simp [authValidateArguments, List.filter_cons, h, ha, ih]

/-- Dropping every argument the caller did not supply leaves
`GuestDirective.validateArguments` unchanged. -/
theorem guestValidateArguments_filter (u : FastifyUser) (args : List GqlArg)
    (supplied : List String) :
    guestValidateArguments u (args.filter fun a => supplied.contains a.name) supplied
      = guestValidateArguments u args supplied := by
  have hpred : (fun x : GqlArg => supplied.contains x.name)
      = (fun x : GqlArg => decide (x.name ∈ supplied)) := by
    funext x
    simp
  rw [hpred]
  induction args with
  | nil => rfl
  | cons a rest ih =>
      by_cases h : a.name ∈ supplied
      · simp [guestValidateArguments, List.filter_cons, h, ih]
      · simp [guestValidateArguments, List.filter_cons, h, ih]

/-- C9.  Argument-level rules are evaluated only for arguments the caller
actually supplied: restricting the argument list to the supplied ones changes
the outcome of neither directive's `validateArguments`, so an unsupplied
optional argument carrying a rule never affects (in particular never blocks)
the call. -/
theorem C9_argument_rules_supplied_only (u : FastifyUser) (args : List GqlArg)
    (supplied : List String) :
    authValidateArguments u (args.filter fun a => supplied.contains a.name) supplied
      = authValidateArguments u args supplied
  ∧ guestValidateArguments u (args.filter fun a => supplied.contains a.name) supplied
      = guestValidateArguments u args supplied :=
  ⟨authValidateArguments_filter u args supplied,
    guestValidateArguments_filter u args supplied⟩

end FullstackAuth
